import Mathlib

/-!
Verification of the KnowledgeHub real-time signaling subsystem.

The definitions below are a shallow embedding of the signaling server
(backend/index.js, the socket event handlers) and of the client-side
negotiation, chat and recording logic (the LiveVideoChat component).
Participant handles (socket ids), room ids and payload strings are
modelled as Lean strings; a JavaScript value that may be missing
(undefined) is modelled as an Option.  JavaScript string truthiness
(a string is falsy exactly when it is empty) is made explicit at each
use site.
-/

namespace KnowledgeHub

/-! ## Server model (backend/index.js socket handlers) -/

/-- Payload of a client-to-server chat-message event; every field can be
missing in JavaScript, hence the Options. -/
structure ChatPayloadIn where
  roomId : Option String
  sender : Option String
  message : Option String
deriving DecidableEq, Repr

/-- Payload of the server-to-client chat-message broadcast: the server
stamps the timestamp. -/
structure ChatBroadcast where
  sender : String
  message : String
  timestamp : Nat
deriving DecidableEq, Repr

/-- Leading-whitespace removal on a character list. -/
def dropLeadingWs : List Char → List Char
  | [] => []
  | c :: cs => if c.isWhitespace then dropLeadingWs cs else c :: cs

/-- JavaScript String.prototype.trim, modelled structurally on the
character list: whitespace is removed from both ends. -/
def jsTrim (s : String) : String :=
  String.mk ((dropLeadingWs ((dropLeadingWs s.data).reverse)).reverse)

/-- The `sender || "Participant"` fallback of the chat-message handler:
JavaScript falsy sender values (missing, null, empty string) become
"Participant". -/
def defaultSender : Option String → String
  | some s => if s = "" then "Participant" else s
  | none => "Participant"

/-- The chat-message handler of backend/index.js.  The room membership is
given as a function from room id to the list of member socket ids (a
socket.io room is a set of socket ids; we use duplicate-free lists).
The code guards with `roomId && message?.trim()` (both must be truthy
strings) and then emits via `io.to(roomId)`, which delivers to every
member of the room -- including the sending socket when it is a member.
The sender field falls back to "Participant" when falsy. -/
def chatMessageHandler (members : String → List String)
    (p : ChatPayloadIn) (now : Nat) : List (String × ChatBroadcast) :=
  match p.roomId, p.message with
  | some rid, some msg =>
      if rid ≠ "" ∧ jsTrim msg ≠ "" then
        (members rid).map fun sock =>
          (sock,
            { sender := defaultSender p.sender
              message := jsTrim msg
              timestamp := now })
      else []
  | _, _ => []

/-- The disconnecting handler of backend/index.js.  `socketRooms` is the
socket.io set `socket.rooms`, which always contains the socket own id as
a room; the handler skips that entry and, for every other room the
handle belonged to, emits user-left via `socket.to(roomId)`, which
delivers to the members of that room other than the disconnecting
socket.  The result is the list of (recipient socket id, departed socket
id) deliveries. -/
def handleDisconnecting (sid : String) (socketRooms : List String)
    (members : String → List String) : List (String × String) :=
  (socketRooms.filter (· ≠ sid)).flatMap fun rid =>
    ((members rid).filter (· ≠ sid)).map fun m => (m, sid)

/-- The emissions of the join-room handler of backend/index.js.
`roomAfter` is the room membership set right after `socket.join` (hence
it contains the joiner).  The joiner receives existing-participants with
the other members; the other members receive user-joined (emitted with
`socket.to(roomId)`, which excludes the joiner). -/
structure JoinEmits where
  existingParticipants : List String
  userJoinedRecipients : List String
deriving DecidableEq, Repr

/-- Model of the join-room handler body after `socket.join` has run. -/
def joinRoom (roomAfter : List String) (joiner : String) : JoinEmits :=
  { existingParticipants := roomAfter.filter (· ≠ joiner)
    userJoinedRecipients := roomAfter.filter (· ≠ joiner) }

/-! ## Client negotiation model (LiveVideoChat component) -/

/-- Projection of the LiveVideoChat negotiation state: the tracked remote
socket id (remoteSocketIdRef), whether a peer connection exists
(peerRef), the systemStatus text, and the log of offer targets the
client has emitted (each initiateOffer call appends one entry). -/
structure ClientSt where
  remoteSocketId : Option String
  hasPeer : Bool
  systemStatus : String
  sentOffers : List String
deriving DecidableEq, Repr

/-- The initial client state: no remote tracked, no peer connection, the
initial status text, no offers sent. -/
def initialClientSt : ClientSt :=
  { remoteSocketId := none
    hasPeer := false
    systemStatus := "Waiting for participant..."
    sentOffers := [] }

/-- initiateOffer of LiveVideoChat: ensures a peer connection exists,
records the target as the tracked remote, emits an offer to the target
and updates the status text. -/
def initiateOffer (st : ClientSt) (targetId : String) : ClientSt :=
  { st with
      hasPeer := true
      remoteSocketId := some targetId
      sentOffers := st.sentOffers ++ [targetId]
      systemStatus := "Sending call invitation..." }

/-- The status text set by handleUserJoined before offering; the display
name falls back to "Participant" when falsy. -/
def joinedStatus (userName : Option String) : String :=
  (match userName with
   | some n => if n = "" then "Participant" else n
   | none => "Participant") ++ " joined. Establishing call..."

/-- handleUserJoined of LiveVideoChat: if a remote is already tracked and
it differs from the joining socket id, return without any change;
otherwise update the status and initiate an offer to the joiner. -/
def handleUserJoined (st : ClientSt) (socketId : String)
    (userName : Option String) : ClientSt :=
  match st.remoteSocketId with
  | some r =>
      if r = socketId then
        initiateOffer { st with systemStatus := joinedStatus userName } socketId
      else st
  | none =>
      initiateOffer { st with systemStatus := joinedStatus userName } socketId

/-- handleExistingParticipants of LiveVideoChat: destructures the first
listed participant; if present, initiate an offer to it, otherwise keep
waiting. -/
def handleExistingParticipants (st : ClientSt)
    (participants : Option (List String)) : ClientSt :=
  match (participants.getD []).head? with
  | some firstParticipant =>
      initiateOffer
        { st with systemStatus := "Participant found. Starting call..." }
        firstParticipant
  | none => { st with systemStatus := "Waiting for another participant..." }

/-! ## Client peer connection and ICE candidate model -/

/-- Projection of an RTCPeerConnection: whether a remote description has
been set, and the list of ICE candidates successfully applied to it. -/
structure PeerConn where
  remoteDescriptionSet : Bool
  appliedCandidates : List String
deriving DecidableEq, Repr

/-- A freshly constructed peer connection. -/
def freshPeer : PeerConn :=
  { remoteDescriptionSet := false, appliedCandidates := [] }

/-- addIceCandidate on the browser peer connection: applied when a remote
description has been set; otherwise the browser rejects, the catch in
handleRemoteCandidate swallows the error, and the candidate is lost. -/
def addIceCandidate (p : PeerConn) (c : String) : PeerConn :=
  if p.remoteDescriptionSet then
    { p with appliedCandidates := p.appliedCandidates ++ [c] }
  else p

/-- setRemoteDescription on the peer connection. -/
def setRemoteDescription (p : PeerConn) : PeerConn :=
  { p with remoteDescriptionSet := true }

/-- handleRemoteCandidate of LiveVideoChat: when peerRef is null the
handler returns immediately and the candidate is discarded (the
component keeps no candidate queue anywhere); otherwise the candidate is
handed to addIceCandidate. -/
def handleRemoteCandidate (peer : Option PeerConn) (c : String) :
    Option PeerConn :=
  match peer with
  | none => none
  | some p => some (addIceCandidate p c)

/-- The peer-connection effect of handleRemoteOffer of LiveVideoChat:
createPeerConnection returns the existing peer or a fresh one, then the
remote description is set from the offer. -/
def handleRemoteOffer (peer : Option PeerConn) : Option PeerConn :=
  some (setRemoteDescription (peer.getD freshPeer))

/-- Execution of the early-candidate race on a fresh client: an
ice-candidate arrives before any offer (peerRef is null), then the offer
arrives and the remote description is set, then a later candidate
arrives. -/
def earlyCandidateRun : Option PeerConn :=
  handleRemoteCandidate
    (handleRemoteOffer (handleRemoteCandidate none "c1")) "c2"

/-! ## Client chat model -/

/-- One entry of the chatMessages state of LiveVideoChat. -/
structure ChatEntry where
  sender : String
  message : String
  timestamp : Nat
deriving DecidableEq, Repr

/-- The activeUserName computation of LiveVideoChat:
baseName = currentUserName ?? studentName ?? "Participant", and
activeUserName = baseName.trim() || "Participant". -/
def activeUserNameOf (currentUserName studentName : Option String) :
    String :=
  let baseName := currentUserName.getD (studentName.getD "Participant")
  if jsTrim baseName = "" then "Participant" else jsTrim baseName

/-- handleChatMessage of LiveVideoChat: an incoming broadcast whose
sender equals the client own active display name is discarded; any
other broadcast is appended to the chat log. -/
def handleChatMessageClient (active : String) (log : List ChatEntry)
    (sender message : String) (timestamp : Nat) : List ChatEntry :=
  if sender = active then log
  else log ++ [{ sender := sender, message := message, timestamp := timestamp }]

/-! ## Recording model (LiveVideoChat recording pipeline) -/

/-- The kind of a media track. -/
inductive TrackKind where
  | aud : TrackKind
  | vid : TrackKind
deriving DecidableEq, Repr

/-- A media track, identified by a numeric id so that sharing of track
objects between streams is visible: two streams holding the same id hold
the same live track object. -/
structure Track where
  id : Nat
  kind : TrackKind
deriving DecidableEq, Repr

/-- A MediaStream is its list of tracks. -/
abbrev MStream := List Track

/-- track.clone() on each element of a list: the clones receive fresh
ids starting at nextId; returns the clones and the next unused id. -/
def cloneTracks : List Track → Nat → List Track × Nat
  | [], n => ([], n)
  | t :: ts, n =>
      let (rest, n') := cloneTracks ts (n + 1)
      ({ id := n, kind := t.kind } :: rest, n')

/-- buildRecordingStream of LiveVideoChat: returns null when there is no
remote stream; otherwise builds a merged stream holding the remote
stream tracks themselves (the very same track objects, not clones)
followed by clones of the local audio tracks.  nextId is the next fresh
track id for the clones. -/
def buildRecordingStream (remote localStream : Option MStream)
    (nextId : Nat) : Option (MStream × Nat) :=
  match remote with
  | none => none
  | some r =>
      let (clones, n') :=
        cloneTracks
          ((localStream.getD []).filter fun t => t.kind = TrackKind.aud)
          nextId
      some (r ++ clones, n')

/-- The set of track ids stopped by stopRecording of LiveVideoChat: it
stops every track of the recorder stream
(mediaRecorderRef.current.stream.getTracks().forEach(track.stop)). -/
def stopRecordingStops (recorderStream : MStream) : List Nat :=
  recorderStream.map fun t => t.id

/-- Projection of the recording state of LiveVideoChat: the isRecording
flag, the recorder (mediaRecorderRef, holding its stream when present),
the captured chunks, the recording duration counter and the status
text. -/
structure RecSt where
  isRecording : Bool
  recorder : Option MStream
  chunks : List Nat
  recordingDuration : Nat
  systemStatus : String
deriving DecidableEq, Repr

/-- startRecording of LiveVideoChat: a no-op when already recording;
when buildRecordingStream returns null the status is set to the
recording-unavailable message and nothing else changes; otherwise, when
the runtime supports the MediaRecorder encoding, the recorder is
created over the merged stream, chunks are reset, the duration counter
restarts and isRecording becomes true; when unsupported, the
constructor throws, the catch sets the status and state is otherwise
untouched. -/
def startRecording (st : RecSt) (remote localStream : Option MStream)
    (nextId : Nat) (supported : Bool) : RecSt :=
  if st.isRecording then st
  else
    match buildRecordingStream remote localStream nextId with
    | none =>
        { st with
            systemStatus := "Recording unavailable until the session is live." }
    | some (merged, _) =>
        if supported then
          { st with
              recorder := some merged
              chunks := []
              isRecording := true
              recordingDuration := 0
              systemStatus := "Recording in progress..." }
        else
          { st with
              systemStatus := "This browser does not support recording." }

/-! ## Theorems -/

/-- A concrete two-member room table used by counterexamples and
witnesses: room1 holds the sockets alice and bob. -/
def exMembers : String → List String := fun r =>
  if r = "room1" then ["alice", "bob"] else []

/-- C2 counterexample: the claim says the chat broadcast is not
delivered back to the sending connection, but the handler emits via
io.to(roomId), which includes the sender.  With room1 = [alice, bob]
and alice sending "hi", the delivery list contains a delivery addressed
to alice herself. -/
theorem chat_echoed_to_sender :
    ("alice",
        ({ sender := "Alice", message := "hi", timestamp := 42 } :
          ChatBroadcast)) ∈
      chatMessageHandler exMembers
        { roomId := some "room1", sender := some "Alice", message := some "hi" }
        42 := by
  decide

/-- C2 (amended): a chat-message with a truthy room id and
non-whitespace text is broadcast, with server-stamped timestamp and
trimmed text, to every member of the room -- including the sending
connection when it is a member of the room. -/
theorem chat_broadcast_to_whole_room (members : String → List String)
    (snd : Option String) (rid m : String) (now : Nat)
    (hrid : rid ≠ "") (hm : jsTrim m ≠ "") :
    chatMessageHandler members
        { roomId := some rid, sender := snd, message := some m } now =
      (members rid).map fun sock =>
        (sock,
          { sender := defaultSender snd, message := jsTrim m, timestamp := now }) := by
  simp [chatMessageHandler, hrid, hm]

/-- C2 witness: the amended broadcast shape at a concrete input. -/
theorem chat_broadcast_to_whole_room_witness :
    ("room1" ≠ "") ∧ (jsTrim "hi" ≠ "") ∧
      chatMessageHandler exMembers
          { roomId := some "room1", sender := some "Alice", message := some "hi" }
          42 =
        (exMembers "room1").map fun sock =>
          (sock,
            { sender := defaultSender (some "Alice"), message := jsTrim "hi",
              timestamp := 42 }) :=
  ⟨by decide, by decide,
    chat_broadcast_to_whole_room exMembers (some "Alice") "room1" "hi" 42
      (by decide) (by decide)⟩

/-- C7: a chat-message whose text is empty or whitespace-only (its trim
is empty) produces no broadcast delivery at all. -/
theorem whitespace_chat_no_broadcast (members : String → List String)
    (rid snd : Option String) (m : String) (now : Nat)
    (h : jsTrim m = "") :
    chatMessageHandler members
        { roomId := rid, sender := snd, message := some m } now = [] := by
  cases rid with
  | none => rfl
  | some r => simp [chatMessageHandler, h]

/-- C7 witness: a three-space message is dropped. -/
theorem whitespace_chat_no_broadcast_witness :
    (jsTrim "   " = "") ∧
      chatMessageHandler exMembers
          { roomId := some "room1", sender := some "Alice", message := some "   " }
          42 = [] :=
  ⟨by decide,
    whitespace_chat_no_broadcast exMembers (some "room1") (some "Alice") "   " 42
      (by decide)⟩

/-- C10: a chat-message with non-whitespace text whose sender is missing
or empty is broadcast with the sender replaced by "Participant". -/
theorem missing_sender_defaults_to_participant (members : String → List String)
    (snd : Option String) (rid m : String) (now : Nat)
    (hrid : rid ≠ "") (hm : jsTrim m ≠ "")
    (hsender : snd = none ∨ snd = some "") :
    chatMessageHandler members
        { roomId := some rid, sender := snd, message := some m } now =
      (members rid).map fun sock =>
        (sock, { sender := "Participant", message := jsTrim m, timestamp := now }) := by
  rcases hsender with h | h <;> subst h <;>
    simp [chatMessageHandler, defaultSender, hrid, hm]

/-- C10 witness: a message with no sender field reaches the room with
sender "Participant". -/
theorem missing_sender_defaults_to_participant_witness :
    ("room1" ≠ "") ∧ (jsTrim "hi" ≠ "") ∧
      chatMessageHandler exMembers
          { roomId := some "room1", sender := none, message := some "hi" } 42 =
        (exMembers "room1").map fun sock =>
          (sock, { sender := "Participant", message := jsTrim "hi", timestamp := 42 }) :=
  ⟨by decide, by decide,
    missing_sender_defaults_to_participant exMembers none "room1" "hi" 42
      (by decide) (by decide) (Or.inl rfl)⟩

/-- A concrete room table for the disconnect witness: room holds the
sockets s1 and s2. -/
def exRooms : String → List String := fun r =>
  if r = "room" then ["s1", "s2"] else []

/-- The number of occurrences of one delivery in a delivery list. -/
def countDeliveries (d : String × String) : List (String × String) → Nat
  | [] => 0
  | x :: xs => (if x = d then 1 else 0) + countDeliveries d xs

theorem countDeliveries_map_not_mem (sid m : String) (l : List String)
    (h : m ∉ l) :
    countDeliveries (m, sid) (l.map fun x => (x, sid)) = 0 := by
  induction l with
  | nil => rfl
  | cons a as ih =>
      have ham : a ≠ m := fun e => h (e ▸ List.mem_cons_self a as)
      have has : m ∉ as := fun e => h (List.mem_cons_of_mem a e)
      simp [countDeliveries, ih has, ham]

theorem countDeliveries_map_nodup_mem (sid m : String) (l : List String)
    (hnd : l.Nodup) (hm : m ∈ l) :
    countDeliveries (m, sid) (l.map fun x => (x, sid)) = 1 := by
  induction l with
  | nil => exact absurd hm (List.not_mem_nil m)
  | cons a as ih =>
      rcases List.mem_cons.mp hm with h | h
      · subst h
        have hnotin : m ∉ as := (List.nodup_cons.mp hnd).1
        simp [countDeliveries, countDeliveries_map_not_mem sid m as hnotin]
      · have hne : a ≠ m := fun e => (List.nodup_cons.mp hnd).1 (by rw [e]; exact h)
        simp [countDeliveries, hne, ih (List.nodup_cons.mp hnd).2 h]

/-- C5: when a socket that is a member of exactly one room R disconnects
(socket.rooms is its own id plus R), every remaining member of R
receives the user-left broadcast carrying the departed socket id exactly
once, and a socket that is not a member of R receives nothing. -/
theorem disconnect_single_user_left (sid R : String)
    (members : String → List String)
    (hR : R ≠ sid) (hnd : (members R).Nodup) :
    (∀ m ∈ members R, m ≠ sid →
        countDeliveries (m, sid) (handleDisconnecting sid [sid, R] members)
          = 1) ∧
    (∀ u x, u ∉ members R →
        (u, x) ∉ handleDisconnecting sid [sid, R] members) := by
  have hrooms : [sid, R].filter (· ≠ sid) = [R] := by
    simp [List.filter, hR]
  have hout : handleDisconnecting sid [sid, R] members =
      ((members R).filter (· ≠ sid)).map fun m => (m, sid) := by
    unfold handleDisconnecting
    rw [hrooms]
    simp
  constructor
  · intro m hm hms
    rw [hout]
    exact countDeliveries_map_nodup_mem sid m _ (hnd.filter _)
      (List.mem_filter.mpr ⟨hm, by simp [hms]⟩)
  · intro u x hu hmem
    rw [hout] at hmem
    rcases List.mem_map.mp hmem with ⟨m, hm, he⟩
    have hmu : m = u := congrArg Prod.fst he
    exact hu (hmu ▸ (List.mem_filter.mp hm).1)

/-- C5 witness: socket s1 in room (members s1, s2) disconnects; s2 gets
exactly one user-left and outsiders get none. -/
theorem disconnect_single_user_left_witness :
    (∀ m ∈ exRooms "room", m ≠ "s1" →
        countDeliveries (m, "s1")
          (handleDisconnecting "s1" ["s1", "room"] exRooms) = 1) ∧
    (∀ u x, u ∉ exRooms "room" →
        (u, x) ∉ handleDisconnecting "s1" ["s1", "room"] exRooms) :=
  disconnect_single_user_left "s1" "room" exRooms (by decide) (by decide)

/-- C1: the claim says the two clients never both initiate an offer for
the same negotiation round.  In the code, when B joins a room already
holding A, the server sends existing-participants [A] to B and
user-joined B to A; B handleExistingParticipants initiates an offer to
A, and A handleUserJoined (with no tracked remote) initiates an offer to
B -- both sides create and send an offer for the same round, so the
glare-avoidance invariant fails. -/
theorem two_party_join_both_sides_offer :
    (joinRoom ["A", "B"] "B").existingParticipants = ["A"] ∧
    "A" ∈ (joinRoom ["A", "B"] "B").userJoinedRecipients ∧
    (handleExistingParticipants initialClientSt
        (some (joinRoom ["A", "B"] "B").existingParticipants)).sentOffers
      = ["A"] ∧
    (handleUserJoined initialClientSt "B" (some "Bob")).sentOffers = ["B"] := by
  decide

/-- C8: a user-joined event carrying a socket id different from the
already-tracked remote handle leaves the client state completely
unchanged: no status update, no offer, same remote, same peer. -/
theorem third_joiner_ignored (st : ClientSt) (r sid : String)
    (u : Option String)
    (h1 : st.remoteSocketId = some r) (h2 : r ≠ sid) :
    handleUserJoined st sid u = st := by
  simp [handleUserJoined, h1, h2]

/-- C8 witness: a client tracking remote B ignores user-joined C. -/
theorem third_joiner_ignored_witness :
    ({ initialClientSt with remoteSocketId := some "B" } : ClientSt).remoteSocketId
        = some "B" ∧
    ("B" : String) ≠ "C" ∧
    handleUserJoined { initialClientSt with remoteSocketId := some "B" } "C"
        (some "Carol")
      = { initialClientSt with remoteSocketId := some "B" } :=
  ⟨rfl, by decide,
    third_joiner_ignored { initialClientSt with remoteSocketId := some "B" }
      "B" "C" (some "Carol") rfl (by decide)⟩

/-- C3: the claim says an ice-candidate received before a remote
description is set is buffered and applied later.  In the code,
handleRemoteCandidate returns immediately when peerRef is null and the
component keeps no candidate queue, so the early candidate c1 is
discarded; after the offer arrives and the remote description is set,
only the later candidate c2 is ever applied -- the applied-candidate
list of the final peer is [c2], not [c1, c2]. -/
theorem early_candidate_dropped_not_buffered :
    handleRemoteCandidate none "c1" = none ∧
    earlyCandidateRun =
      some { remoteDescriptionSet := true, appliedCandidates := ["c2"] } := by
  exact ⟨rfl, rfl⟩

/-- The remote stream of the established call: one live video track (id
0) and one live audio track (id 1). -/
def exRemoteStream : MStream :=
  [{ id := 0, kind := TrackKind.vid }, { id := 1, kind := TrackKind.aud }]

/-- The local stream of the call: camera track id 2, microphone track
id 3. -/
def exLocalStream : MStream :=
  [{ id := 2, kind := TrackKind.vid }, { id := 3, kind := TrackKind.aud }]

/-- The merged recording stream the code builds from the example call:
the remote live tracks 0 and 1 themselves plus the local audio clone
with fresh id 4. -/
def exMergedStream : MStream :=
  [{ id := 0, kind := TrackKind.vid }, { id := 1, kind := TrackKind.aud },
    { id := 4, kind := TrackKind.aud }]

/-- C4: the claim says stop() stops only the internal recording stream
tracks and leaves the live remote tracks unaffected.  In the code,
buildRecordingStream adds the remote stream track objects themselves
(ids 0 and 1) to the recorder stream -- only the local audio is cloned
-- and stopRecording stops every track of the recorder stream, so the
live remote tracks 0 and 1 are stopped along with the clone. -/
theorem stop_recording_stops_live_remote_tracks :
    buildRecordingStream (some exRemoteStream) (some exLocalStream) 4 =
      some (exMergedStream, 5) ∧
    exRemoteStream.map Track.id = [0, 1] ∧
    0 ∈ stopRecordingStops exMergedStream ∧
    1 ∈ stopRecordingStops exMergedStream := by
  decide

/-- The initial recording state of the component. -/
def initialRecSt : RecSt :=
  { isRecording := false
    recorder := none
    chunks := []
    recordingDuration := 0
    systemStatus := "Waiting for participant..." }

/-- C6: startRecording called while not recording and with no remote
stream leaves isRecording false, creates no recorder, captures no
chunks, and only sets the recording-unavailable status message. -/
theorem start_recording_without_remote_fails (st : RecSt)
    (localStream : Option MStream) (nextId : Nat) (supported : Bool)
    (h : st.isRecording = false) :
    (startRecording st none localStream nextId supported).isRecording = false ∧
    (startRecording st none localStream nextId supported).recorder
        = st.recorder ∧
    (startRecording st none localStream nextId supported).chunks = st.chunks ∧
    (startRecording st none localStream nextId supported).systemStatus
        = "Recording unavailable until the session is live." := by
  simp [startRecording, buildRecordingStream, h]

/-- C6 witness: starting from the initial state with no remote stream. -/
theorem start_recording_without_remote_fails_witness :
    initialRecSt.isRecording = false ∧
    (startRecording initialRecSt none (some exLocalStream) 4 true).isRecording
        = false ∧
    (startRecording initialRecSt none (some exLocalStream) 4 true).recorder
        = initialRecSt.recorder ∧
    (startRecording initialRecSt none (some exLocalStream) 4 true).chunks
        = initialRecSt.chunks ∧
    (startRecording initialRecSt none (some exLocalStream) 4 true).systemStatus
        = "Recording unavailable until the session is live." :=
  ⟨rfl,
    start_recording_without_remote_fails initialRecSt (some exLocalStream) 4
      true rfl⟩

/-- C9: an incoming chat broadcast whose sender equals the client active
display name is discarded -- the chat log is unchanged -- regardless of
which participant actually sent it, so a different participant using the
same display name is discarded too. -/
theorem own_name_broadcast_discarded (cu sn : Option String)
    (log : List ChatEntry) (sender message : String) (ts : Nat)
    (h : sender = activeUserNameOf cu sn) :
    handleChatMessageClient (activeUserNameOf cu sn) log sender message ts
      = log := by
  simp [handleChatMessageClient, h]

/-- C9 witness: the client named Alice drops a broadcast whose sender
field is Alice. -/
theorem own_name_broadcast_discarded_witness :
    ("Alice" = activeUserNameOf (some "Alice") (some "Student")) ∧
    handleChatMessageClient (activeUserNameOf (some "Alice") (some "Student"))
        [] "Alice" "hello" 7 = [] :=
  ⟨by decide,
    own_name_broadcast_discarded (some "Alice") (some "Student") [] "Alice"
      "hello" 7 (by decide)⟩

end KnowledgeHub
